import Mathlib

/-
Verification of the balance-aware expense settlement engine of the
admin-obras repository.  The definitions below are a shallow embedding of
the Python source: money is modelled as rationals, `Decimal.quantize` with
the default ROUND_HALF_EVEN mode as `quantize2`, timestamps as natural
numbers, nullable columns as `Option`, and each mutating endpoint as a pure
function from the entities it reads to the entities it writes (errors via
`Except`, mirroring the HTTPException-before-any-mutation structure).
-/

namespace AdminObras

/-- Currency enum from app/models/expense.py. -/
inductive Currency
| USD
| ARS
deriving DecidableEq, Repr

/-- CurrencyMode enum from app/models/expense.py. -/
inductive CurrencyMode
| ARS
| USD
| DUAL
deriving DecidableEq, Repr

/-- ExpenseStatus enum from app/models/expense.py; `somePaid` models the
PARTIAL value. -/
inductive ExpenseStatus
| pending
| somePaid
| paid
deriving DecidableEq, Repr

/-- Round a rational to an integer with ties to even, the default rounding
of Python Decimal.quantize (ROUND_HALF_EVEN). -/
def roundHalfEven (q : ℚ) : ℤ :=
  if q - ⌊q⌋ < 1/2 then ⌊q⌋
  else if 1/2 < q - ⌊q⌋ then ⌊q⌋ + 1
  else if Even ⌊q⌋ then ⌊q⌋ else ⌊q⌋ + 1

/-- Embedding of Decimal.quantize(Decimal("0.01")): round to two decimal
places, half to even. -/
def quantize2 (q : ℚ) : ℚ :=
  (roundHalfEven (q * 100) : ℚ) / 100

/-- ProjectMember row (app/models/project_member.py) restricted to the
fields the settlement engine reads and writes. -/
structure ProjectMember where
  user_id : ℕ
  participation_percentage : ℚ
  is_active : Bool
  balance_usd : ℚ
  balance_ars : ℚ
deriving DecidableEq, Repr

/-- Expense row (app/models/expense.py) restricted to the fields the
settlement engine reads and writes. -/
structure Expense where
  amount_usd : ℚ
  amount_ars : ℚ
  currency_original : Currency
  exchange_rate_used : ℚ
  exchange_rate_source : Option String
  created_by : ℕ
  is_deleted : Bool
  deleted_by : Option ℕ
deriving DecidableEq, Repr

/-- ParticipantPayment row (app/models/payment.py together with the columns
added by the migrations in app/database.py). -/
structure ParticipantPayment where
  user_id : ℕ
  amount_due_usd : ℚ
  amount_due_ars : ℚ
  amount_paid : Option ℚ
  currency_paid : Option Currency
  is_pending_approval : Bool
  is_paid : Bool
  paid_at : Option ℕ
  payment_date : Option ℕ
  submitted_at : Option ℕ
  approved_by : Option ℕ
  approved_at : Option ℕ
  rejection_reason : Option String
  receipt_file_path : Option String
  exchange_rate_at_payment : Option ℚ
  amount_paid_usd : Option ℚ
  amount_paid_ars : Option ℚ
  exchange_rate_source : Option String
  is_deleted : Bool
  deleted_by : Option ℕ
deriving DecidableEq, Repr

/-- Python truthiness of a nullable string column (None and "" are falsy). -/
def truthyStr : Option String → Bool
| none => false
| some s => decide (s ≠ "")

/-- Python truthiness of a nullable numeric column (None and 0 are falsy). -/
def truthyQ : Option ℚ → Bool
| none => false
| some a => decide (a ≠ 0)

/-- convert_currency from app/services/exchange_rate.py: returns the pair
(amount_usd, amount_ars), both quantized to two decimals. -/
def convert_currency (amount : ℚ) (from_currency : Currency) (exchange_rate : ℚ) : ℚ × ℚ :=
  match from_currency with
  | Currency.USD => (quantize2 amount, quantize2 (amount * exchange_rate))
  | Currency.ARS => (quantize2 (amount / exchange_rate), quantize2 amount)

/-- check_sufficient_balance from app/services/expense_splitter.py. -/
def check_sufficient_balance (member : ProjectMember) (amount_due_usd amount_due_ars : ℚ)
    (currency_mode : CurrencyMode) (expense : Expense) : Bool :=
  match currency_mode with
  | CurrencyMode.ARS => decide (amount_due_ars ≤ member.balance_ars)
  | CurrencyMode.USD => decide (amount_due_usd ≤ member.balance_usd)
  | CurrencyMode.DUAL =>
    if expense.currency_original = Currency.ARS then
      decide (amount_due_ars ≤ member.balance_ars)
    else
      decide (amount_due_usd * expense.exchange_rate_used ≤ member.balance_ars)

/-- auto_pay_from_balance from app/services/expense_splitter.py: the payment
record created when the balance covers the share, already marked paid and
approved by the creator of the expense, with the exchange fields copied
from the expense. -/
def auto_pay_from_balance (expense : Expense) (member : ProjectMember)
    (amount_due_usd amount_due_ars : ℚ) (currency_mode : CurrencyMode) (now : ℕ) :
    ParticipantPayment :=
  let amount_paid := if currency_mode = CurrencyMode.USD then amount_due_usd else amount_due_ars
  let currency_paid := if currency_mode = CurrencyMode.USD then Currency.USD else Currency.ARS
  { user_id := member.user_id
    amount_due_usd := amount_due_usd
    amount_due_ars := amount_due_ars
    amount_paid := some amount_paid
    currency_paid := some currency_paid
    is_pending_approval := false
    is_paid := true
    paid_at := some now
    payment_date := some now
    submitted_at := some now
    approved_by := some expense.created_by
    approved_at := some now
    rejection_reason := none
    receipt_file_path := none
    exchange_rate_at_payment := some expense.exchange_rate_used
    amount_paid_usd := some amount_due_usd
    amount_paid_ars := some amount_due_ars
    exchange_rate_source := expense.exchange_rate_source
    is_deleted := false
    deleted_by := none }

/-- ParticipantPayment record created by the pending branch of
create_participant_payments, with the column defaults of
app/models/payment.py: amount_paid has Python-side default 0, the boolean
flags default to false, and every other nullable column defaults to NULL. -/
def pendingPayment (uid : ℕ) (amount_due_usd amount_due_ars : ℚ) : ParticipantPayment :=
  { user_id := uid
    amount_due_usd := amount_due_usd
    amount_due_ars := amount_due_ars
    amount_paid := some 0
    currency_paid := none
    is_pending_approval := false
    is_paid := false
    paid_at := none
    payment_date := none
    submitted_at := none
    approved_by := none
    approved_at := none
    rejection_reason := none
    receipt_file_path := none
    exchange_rate_at_payment := none
    amount_paid_usd := none
    amount_paid_ars := none
    exchange_rate_source := none
    is_deleted := false
    deleted_by := none }

/-- calc_amounts, the inner helper of create_participant_payments: the pair
(amount_due_usd, amount_due_ars) for one member, where `percentage` is the
member percentage already divided by 100. -/
def calc_amounts (expense : Expense) (currency_mode : CurrencyMode) (percentage : ℚ) : ℚ × ℚ :=
  match currency_mode with
  | CurrencyMode.ARS => (0, quantize2 (expense.amount_ars * percentage))
  | CurrencyMode.USD => (quantize2 (expense.amount_usd * percentage), 0)
  | CurrencyMode.DUAL =>
    (quantize2 (expense.amount_usd * percentage), quantize2 (expense.amount_ars * percentage))

/-- Loop body of create_participant_payments for one project member:
computes the shares, runs the sufficiency check, and either auto-pays
(debiting the balance per currency mode) or creates the pending record.
Returns the created payment together with the updated member row. -/
def split_member_step (expense : Expense) (currency_mode : CurrencyMode) (now : ℕ)
    (member : ProjectMember) : ParticipantPayment × ProjectMember :=
  let percentage := member.participation_percentage / 100
  let amounts := calc_amounts expense currency_mode percentage
  let amount_due_usd := amounts.1
  let amount_due_ars := amounts.2
  if check_sufficient_balance member amount_due_usd amount_due_ars currency_mode expense then
    let payment := auto_pay_from_balance expense member amount_due_usd amount_due_ars currency_mode now
    let member2 :=
      match currency_mode with
      | CurrencyMode.ARS => { member with balance_ars := member.balance_ars - amount_due_ars }
      | CurrencyMode.USD => { member with balance_usd := member.balance_usd - amount_due_usd }
      | CurrencyMode.DUAL =>
        if expense.currency_original = Currency.ARS then
          { member with balance_ars := member.balance_ars - amount_due_ars }
        else
          { member with balance_ars :=
              member.balance_ars - amount_due_usd * expense.exchange_rate_used }
    (payment, member2)
  else
    (pendingPayment member.user_id amount_due_usd amount_due_ars, member)

/-- create_participant_payments from app/services/expense_splitter.py over
the resolved list of active project members: the list of created payments
together with the updated member rows (each member is visited once, so the
loop is a map). -/
def create_participant_payments (expense : Expense) (currency_mode : CurrencyMode) (now : ℕ)
    (members : List ProjectMember) : List ParticipantPayment × List ProjectMember :=
  (members.map (fun m => (split_member_step expense currency_mode now m).1),
   members.map (fun m => (split_member_step expense currency_mode now m).2))

/-- update_expense_status from app/services/expense_splitter.py: recompute
the expense status from all of its payment rows (the query has no
is_deleted filter).  With no payments the current status is returned
unchanged. -/
def update_expense_status (current : ExpenseStatus) (payments : List ParticipantPayment) :
    ExpenseStatus :=
  if payments.isEmpty then current
  else
    let paid_count := payments.countP (fun p => p.is_paid)
    if paid_count = 0 then ExpenseStatus.pending
    else if paid_count = payments.length then ExpenseStatus.paid
    else ExpenseStatus.somePaid

/-- Request body PaymentMarkPaid (app/schemas/payment.py) as consumed by
submit_payment. -/
structure PaymentMarkPaid where
  amount_paid : ℚ
  currency_paid : Currency
  payment_date : Option ℕ
  exchange_rate_override : Option ℚ
deriving DecidableEq, Repr

/-- Middle section of submit_payment (and of mark_payment_as_paid) in
app/routers/payments.py: record the paid amounts and the exchange rate
according to the currency mode.  `fetched_rate` stands for the result of
fetch_blue_dollar_rate_sync, none when the fetch raised. -/
def record_paid_amounts (currency_mode : CurrencyMode) (data : PaymentMarkPaid)
    (fetched_rate : Option ℚ) (p : ParticipantPayment) : ParticipantPayment :=
  match currency_mode with
  | CurrencyMode.ARS =>
    { p with amount_paid_ars := some data.amount_paid, amount_paid_usd := none,
             exchange_rate_at_payment := none, exchange_rate_source := none }
  | CurrencyMode.USD =>
    { p with amount_paid_usd := some data.amount_paid, amount_paid_ars := none,
             exchange_rate_at_payment := none, exchange_rate_source := none }
  | CurrencyMode.DUAL =>
    let tcSrc : Option ℚ × Option String :=
      match data.exchange_rate_override with
      | some tc => (some tc, some "manual")
      | none =>
        match fetched_rate with
        | some tc => (some tc, some "auto")
        | none => (none, none)
    let p1 := { p with exchange_rate_at_payment := tcSrc.1, exchange_rate_source := tcSrc.2 }
    match tcSrc.1 with
    | some tc =>
      if 0 < tc then
        if data.currency_paid = Currency.USD then
          { p1 with amount_paid_usd := some data.amount_paid,
                    amount_paid_ars := some (quantize2 (data.amount_paid * tc)) }
        else
          { p1 with amount_paid_ars := some data.amount_paid,
                    amount_paid_usd := some (quantize2 (data.amount_paid / tc)) }
      else
        if data.currency_paid = Currency.USD then
          { p1 with amount_paid_usd := some data.amount_paid }
        else
          { p1 with amount_paid_ars := some data.amount_paid }
    | none =>
      if data.currency_paid = Currency.USD then
        { p1 with amount_paid_usd := some data.amount_paid }
      else
        { p1 with amount_paid_ars := some data.amount_paid }

/-- submit_payment from app/routers/payments.py.  `is_individual` and
`user_is_admin` are resolved from the project exactly as the route does;
the error branches mirror the HTTPExceptions raised before any mutation. -/
def submit_payment (payment : ParticipantPayment) (data : PaymentMarkPaid)
    (current_user : ℕ) (is_individual user_is_admin : Bool)
    (currency_mode : CurrencyMode) (fetched_rate : Option ℚ) (now : ℕ) :
    Except String ParticipantPayment :=
  if payment.user_id ≠ current_user then
    Except.error "Not authorized to submit this payment"
  else if payment.is_paid then
    Except.error "Payment is already approved and paid"
  else
    let p1 := { payment with
      amount_paid := some data.amount_paid
      currency_paid := some data.currency_paid
      payment_date := some (data.payment_date.getD now)
      submitted_at := some now
      rejection_reason := none }
    let p2 := record_paid_amounts currency_mode data fetched_rate p1
    if is_individual || user_is_admin then
      Except.ok { p2 with
        is_paid := true
        is_pending_approval := false
        paid_at := some now
        approved_at := some now
        approved_by := some current_user }
    else
      Except.ok { p2 with is_pending_approval := true }

/-- approve_payment from app/routers/payments.py, ParticipantPayment branch
(the caller is already known to be a project admin).  Approval sets the
paid and approval fields; rejection clears the pending flag, nulls
amount_paid and currency_paid, and records the reason and the rejecting
admin.  Python evaluates `approval.rejection_reason or "Rejected by admin"`,
so an absent or empty reason falls back to the fixed text. -/
def approve_payment_expense (payment : ParticipantPayment) (approved : Bool)
    (rejection_reason : Option String) (admin : ℕ) (now : ℕ) :
    Except String ParticipantPayment :=
  if ¬payment.is_pending_approval then
    Except.error "Payment is not pending approval"
  else if approved then
    Except.ok { payment with
      is_pending_approval := false
      is_paid := true
      paid_at := some now
      approved_by := some admin
      approved_at := some now
      rejection_reason := none }
  else
    Except.ok { payment with
      is_pending_approval := false
      is_paid := false
      amount_paid := none
      currency_paid := none
      rejection_reason :=
        some (if truthyStr rejection_reason then rejection_reason.getD "" else "Rejected by admin")
      approved_by := some admin
      approved_at := some now }

/-- Balance credit performed by approve_payment when a contribution payment
is approved (app/routers/payments.py): the amount goes to the field picked
by the currency mode, DUAL keeping the balance only in ARS. -/
def credit_contribution (currency_mode : CurrencyMode) (amount : ℚ) (m : ProjectMember) :
    ProjectMember :=
  match currency_mode with
  | CurrencyMode.ARS => { m with balance_ars := m.balance_ars + amount }
  | CurrencyMode.USD => { m with balance_usd := m.balance_usd + amount }
  | CurrencyMode.DUAL => { m with balance_ars := m.balance_ars + amount }

/-- Balance restoration performed by delete_expense for one auto-paid
payment (app/routers/expenses.py): the stored amount_paid field picked by
the currency mode is credited back when it is truthy. -/
def credit_restore (currency_mode : CurrencyMode) (p : ParticipantPayment) (m : ProjectMember) :
    ProjectMember :=
  match currency_mode with
  | CurrencyMode.ARS =>
    if truthyQ p.amount_paid_ars then
      { m with balance_ars := m.balance_ars + p.amount_paid_ars.getD 0 }
    else m
  | CurrencyMode.USD =>
    if truthyQ p.amount_paid_usd then
      { m with balance_usd := m.balance_usd + p.amount_paid_usd.getD 0 }
    else m
  | CurrencyMode.DUAL =>
    if truthyQ p.amount_paid_ars then
      { m with balance_ars := m.balance_ars + p.amount_paid_ars.getD 0 }
    else m

/-- delete_expense from app/routers/expenses.py.  The blocking check (any
non-deleted payment with a participant-uploaded receipt) happens before any
mutation; on success every non-receipted payment is soft-deleted, balances
of auto-paid payments are restored, and the expense is soft-deleted.  The
error value carries the user ids of the blocking participants (the route
reports their full names). -/
def delete_expense (currency_mode : CurrencyMode) (deleter : ℕ) (e : Expense)
    (payments : List ParticipantPayment) (members : List ProjectMember) :
    Except (List ℕ) (Expense × List ParticipantPayment × List ProjectMember) :=
  let active := payments.filter (fun p => !p.is_deleted)
  let blocking := active.filter (fun p => truthyStr p.receipt_file_path)
  if blocking.isEmpty then
    let auto_del := active.filter (fun p => !truthyStr p.receipt_file_path)
    let members2 := auto_del.foldl (fun ms p =>
      if p.is_paid && !truthyStr p.receipt_file_path then
        ms.map (fun m => if m.user_id = p.user_id then credit_restore currency_mode p m else m)
      else ms) members
    let payments2 := payments.map (fun p =>
      if !p.is_deleted && !truthyStr p.receipt_file_path then
        { p with is_deleted := true, deleted_by := some deleter }
      else p)
    Except.ok ({ e with is_deleted := true, deleted_by := some deleter }, payments2, members2)
  else
    Except.error (blocking.map (fun p => p.user_id))

/-- delete_payment from app/routers/payments.py: only an admin or the owner
may delete, a paid payment is never deleted, otherwise the payment is
soft-deleted. -/
def delete_payment (payment : ParticipantPayment) (is_admin is_owner : Bool) (deleter : ℕ) :
    Except String ParticipantPayment :=
  if !is_admin && !is_owner then
    Except.error "Not authorized to delete this payment"
  else if payment.is_paid then
    Except.error "No se puede eliminar un pago que ya fue aprobado"
  else
    Except.ok { payment with is_deleted := true, deleted_by := some deleter }

theorem abs_roundHalfEven_sub_le (q : ℚ) : |(roundHalfEven q : ℚ) - q| ≤ 1/2 := by
  have h0 : (⌊q⌋ : ℚ) ≤ q := Int.floor_le q
  have h1 : q < ⌊q⌋ + 1 := Int.lt_floor_add_one q
  unfold roundHalfEven
  split
  · rename_i h
    rw [abs_le]
    constructor <;> linarith
  · rename_i h
    push_neg at h
    split
    · rename_i h2
      rw [abs_le]
      push_cast
      constructor <;> linarith
    · rename_i h2
      push_neg at h2
      have heq : q - ⌊q⌋ = 1/2 := le_antisymm h2 h
      split
      · rw [abs_le]
        constructor <;> linarith
      · rw [abs_le]
        push_cast
        constructor <;> linarith

theorem abs_quantize2_sub_le (q : ℚ) : |quantize2 q - q| ≤ 1/200 := by
  have h := abs_roundHalfEven_sub_le (q * 100)
  rw [abs_le] at h ⊢
  unfold quantize2
  obtain ⟨hl, hr⟩ := h
  constructor <;> [linarith; linarith]

theorem abs_list_sum_sub_le {α : Type} (f g : α → ℚ) (c : ℚ) (l : List α)
    (h : ∀ a ∈ l, |g a - f a| ≤ c) :
    |(l.map g).sum - (l.map f).sum| ≤ (l.length : ℚ) * c := by
  induction l with
  | nil => simp
  | cons x xs ih =>
    have hx : |g x - f x| ≤ c := h x (List.mem_cons_self x xs)
    have hxs : |(xs.map g).sum - (xs.map f).sum| ≤ (xs.length : ℚ) * c :=
      ih (fun a ha => h a (List.mem_cons_of_mem x ha))
    simp only [List.map_cons, List.sum_cons, List.length_cons]
    have key : g x + (xs.map g).sum - (f x + (xs.map f).sum)
        = (g x - f x) + ((xs.map g).sum - (xs.map f).sum) := by ring
    rw [key]
    calc |(g x - f x) + ((xs.map g).sum - (xs.map f).sum)|
        ≤ |g x - f x| + |(xs.map g).sum - (xs.map f).sum| := abs_add _ _
      _ ≤ c + (xs.length : ℚ) * c := add_le_add hx hxs
      _ = ((xs.length : ℚ) + 1) * c := by ring
      _ = (((xs.length : ℕ) + 1 : ℕ) : ℚ) * c := by push_cast; ring

theorem list_sum_map_mul_div {α : Type} (A : ℚ) (f : α → ℚ) (l : List α) :
    (l.map (fun a => A * (f a / 100))).sum = A * (l.map f).sum / 100 := by
  induction l with
  | nil => simp
  | cons x xs ih =>
    simp only [List.map_cons, List.sum_cons, ih]
    ring

/-- Sample ARS-mode expense used to instantiate theorems with hypotheses. -/
def sampleExpenseARS : Expense :=
  { amount_usd := 0, amount_ars := 100, currency_original := Currency.ARS,
    exchange_rate_used := 1, exchange_rate_source := none, created_by := 7,
    is_deleted := false, deleted_by := none }

/-- Sample member whose ARS balance covers a 50 percent share of 100 ARS. -/
def richMember : ProjectMember :=
  { user_id := 1, participation_percentage := 50, is_active := true,
    balance_usd := 0, balance_ars := 100 }

/-- Sample member whose ARS balance does not cover a 50 percent share of
100 ARS. -/
def poorMember : ProjectMember :=
  { user_id := 2, participation_percentage := 50, is_active := true,
    balance_usd := 0, balance_ars := 10 }

/-- Sample payment already marked paid. -/
def samplePaid : ParticipantPayment :=
  { pendingPayment 2 10 10 with is_paid := true }

/-- Sample payment carrying a participant-uploaded receipt. -/
def receiptedPayment : ParticipantPayment :=
  { pendingPayment 4 10 10 with receipt_file_path := some "r.png" }

/-- Sample payment awaiting admin approval with converted amounts recorded. -/
def c6SamplePayment : ParticipantPayment :=
  { pendingPayment 3 60 60 with
      is_pending_approval := true, amount_paid := some 60,
      currency_paid := some Currency.ARS, amount_paid_ars := some 100,
      submitted_at := some 1 }

/-- C4: recomputing an expense status from its obligation set leaves the
status unchanged when there are no obligations; otherwise it yields PENDING
when zero obligations are paid, PAID when all are paid, PARTIAL in every
other case; and recomputation is idempotent. -/
theorem c4_recompute_status (s : ExpenseStatus) (ps : List ParticipantPayment) :
    update_expense_status s [] = s ∧
    (ps ≠ [] → ps.countP (fun p => p.is_paid) = 0 →
      update_expense_status s ps = ExpenseStatus.pending) ∧
    (ps ≠ [] → ps.countP (fun p => p.is_paid) = ps.length →
      update_expense_status s ps = ExpenseStatus.paid) ∧
    (ps ≠ [] → ps.countP (fun p => p.is_paid) ≠ 0 →
      ps.countP (fun p => p.is_paid) ≠ ps.length →
      update_expense_status s ps = ExpenseStatus.somePaid) ∧
    update_expense_status (update_expense_status s ps) ps = update_expense_status s ps := by
  refine ⟨by simp [update_expense_status], ?_, ?_, ?_, ?_⟩
  · intro hne h0
    simp [update_expense_status, List.isEmpty_iff, hne, h0]
  · intro hne hall
    have hlen : ps.length ≠ 0 := by
      have := List.length_pos.mpr hne
      omega
    have h0 : ps.countP (fun p => p.is_paid) ≠ 0 := by rw [hall]; exact hlen
    simp [update_expense_status, List.isEmpty_iff, hne, h0, hall]
  · intro hne h0 hall
    simp [update_expense_status, List.isEmpty_iff, hne, h0, hall]
  · by_cases hps : ps = []
    · subst hps
      simp [update_expense_status]
    · simp [update_expense_status, List.isEmpty_iff, hps]

/-- Witness for c4_recompute_status: a single unpaid obligation yields
PENDING whatever the stored status was. -/
theorem c4_recompute_status_witness :
    ([pendingPayment 1 10 10] ≠ ([] : List ParticipantPayment)) ∧
    ([pendingPayment 1 10 10].countP (fun p => p.is_paid) = 0) ∧
    update_expense_status ExpenseStatus.paid [pendingPayment 1 10 10] = ExpenseStatus.pending := by
  refine ⟨by decide, by decide, ?_⟩
  exact (c4_recompute_status ExpenseStatus.paid [pendingPayment 1 10 10]).2.1
    (by decide) (by decide)

/-- C7: when the balance sufficiency check passes at split time, the payment
created by the splitter is already paid, its paid_at, submitted_at and
approved_at are the creation instant, approved_by is the creator of the
expense, and the exchange fields are copied from the expense. -/
theorem c7_auto_paid_fields (e : Expense) (mode : CurrencyMode) (now : ℕ) (m : ProjectMember)
    (h : check_sufficient_balance m
          (calc_amounts e mode (m.participation_percentage / 100)).1
          (calc_amounts e mode (m.participation_percentage / 100)).2 mode e = true) :
    ((split_member_step e mode now m).1).is_paid = true ∧
    ((split_member_step e mode now m).1).paid_at = some now ∧
    ((split_member_step e mode now m).1).submitted_at = some now ∧
    ((split_member_step e mode now m).1).approved_at = some now ∧
    ((split_member_step e mode now m).1).approved_by = some e.created_by ∧
    ((split_member_step e mode now m).1).exchange_rate_at_payment = some e.exchange_rate_used ∧
    ((split_member_step e mode now m).1).exchange_rate_source = e.exchange_rate_source := by
  simp [split_member_step, h, auto_pay_from_balance]

/-- Witness for c7_auto_paid_fields: a member with balance 100 covering a
50 ARS share is auto-paid at creation time. -/
theorem c7_auto_paid_fields_witness :
    check_sufficient_balance richMember
      (calc_amounts sampleExpenseARS CurrencyMode.ARS (richMember.participation_percentage / 100)).1
      (calc_amounts sampleExpenseARS CurrencyMode.ARS (richMember.participation_percentage / 100)).2
      CurrencyMode.ARS sampleExpenseARS = true ∧
    ((split_member_step sampleExpenseARS CurrencyMode.ARS 5 richMember).1).approved_by
      = some sampleExpenseARS.created_by := by
  have hsb : check_sufficient_balance richMember
      (calc_amounts sampleExpenseARS CurrencyMode.ARS (richMember.participation_percentage / 100)).1
      (calc_amounts sampleExpenseARS CurrencyMode.ARS (richMember.participation_percentage / 100)).2
      CurrencyMode.ARS sampleExpenseARS = true := by
    norm_num [check_sufficient_balance, calc_amounts, sampleExpenseARS, richMember, quantize2,
      roundHalfEven]
  exact ⟨hsb, (c7_auto_paid_fields sampleExpenseARS CurrencyMode.ARS 5 richMember hsb).2.2.2.2.1⟩

/-- C2 (amended): when the balance sufficiency check fails, the splitter
creates the obligation in the pending state with is_paid false,
is_pending_approval false, currency and approval fields null, amount_paid
equal to the column default 0 (not null), and leaves the member row, hence
both balances, completely unchanged. -/
theorem c2_insufficient_pending (e : Expense) (mode : CurrencyMode) (now : ℕ) (m : ProjectMember)
    (h : check_sufficient_balance m
          (calc_amounts e mode (m.participation_percentage / 100)).1
          (calc_amounts e mode (m.participation_percentage / 100)).2 mode e = false) :
    (split_member_step e mode now m).2 = m ∧
    ((split_member_step e mode now m).1).is_paid = false ∧
    ((split_member_step e mode now m).1).is_pending_approval = false ∧
    ((split_member_step e mode now m).1).amount_paid = some 0 ∧
    ((split_member_step e mode now m).1).currency_paid = none ∧
    ((split_member_step e mode now m).1).approved_by = none ∧
    ((split_member_step e mode now m).1).approved_at = none ∧
    ((split_member_step e mode now m).1).paid_at = none := by
  simp [split_member_step, h, pendingPayment]

/-- Witness for c2_insufficient_pending: a member holding 10 ARS against a
50 ARS share keeps its balances untouched. -/
theorem c2_insufficient_pending_witness :
    check_sufficient_balance poorMember
      (calc_amounts sampleExpenseARS CurrencyMode.ARS (poorMember.participation_percentage / 100)).1
      (calc_amounts sampleExpenseARS CurrencyMode.ARS (poorMember.participation_percentage / 100)).2
      CurrencyMode.ARS sampleExpenseARS = false ∧
    (split_member_step sampleExpenseARS CurrencyMode.ARS 0 poorMember).2 = poorMember := by
  have hsb : check_sufficient_balance poorMember
      (calc_amounts sampleExpenseARS CurrencyMode.ARS (poorMember.participation_percentage / 100)).1
      (calc_amounts sampleExpenseARS CurrencyMode.ARS (poorMember.participation_percentage / 100)).2
      CurrencyMode.ARS sampleExpenseARS = false := by
    norm_num [check_sufficient_balance, calc_amounts, sampleExpenseARS, poorMember, quantize2,
      roundHalfEven]
  exact ⟨hsb, (c2_insufficient_pending sampleExpenseARS CurrencyMode.ARS 0 poorMember hsb).1⟩

/-- Counterexample to C2 as stated: the pending obligation created for an
insufficient member carries amount_paid = 0 (the SQLAlchemy column default
of app/models/payment.py), not null as the claim asserts. -/
theorem c2_counterexample :
    check_sufficient_balance poorMember
      (calc_amounts sampleExpenseARS CurrencyMode.ARS (poorMember.participation_percentage / 100)).1
      (calc_amounts sampleExpenseARS CurrencyMode.ARS (poorMember.participation_percentage / 100)).2
      CurrencyMode.ARS sampleExpenseARS = false ∧
    ((split_member_step sampleExpenseARS CurrencyMode.ARS 0 poorMember).1).amount_paid ≠ none := by
  have hsb : check_sufficient_balance poorMember
      (calc_amounts sampleExpenseARS CurrencyMode.ARS (poorMember.participation_percentage / 100)).1
      (calc_amounts sampleExpenseARS CurrencyMode.ARS (poorMember.participation_percentage / 100)).2
      CurrencyMode.ARS sampleExpenseARS = false := by
    norm_num [check_sufficient_balance, calc_amounts, sampleExpenseARS, poorMember, quantize2,
      roundHalfEven]
  refine ⟨hsb, ?_⟩
  simp [split_member_step, hsb, pendingPayment]

theorem record_paid_amounts_is_paid (mode : CurrencyMode) (data : PaymentMarkPaid)
    (fr : Option ℚ) (p : ParticipantPayment) :
    (record_paid_amounts mode data fr p).is_paid = p.is_paid := by
  cases mode with
  | ARS => rfl
  | USD => rfl
  | DUAL =>
    simp only [record_paid_amounts]
    repeat' split
    all_goals rfl

theorem record_paid_amounts_pending (mode : CurrencyMode) (data : PaymentMarkPaid)
    (fr : Option ℚ) (p : ParticipantPayment) :
    (record_paid_amounts mode data fr p).is_pending_approval = p.is_pending_approval := by
  cases mode with
  | ARS => rfl
  | USD => rfl
  | DUAL =>
    simp only [record_paid_amounts]
    repeat' split
    all_goals rfl

/-- C5: submitting a not-yet-paid obligation as its owner auto-approves it
when the project is individual or the submitter is a project admin
(is_paid true, pending flag cleared, approved_by the submitter, approval
and payment instants recorded); otherwise it is left pending approval and
unpaid. -/
theorem c5_submit_approval_rule (p : ParticipantPayment) (data : PaymentMarkPaid)
    (u : ℕ) (indiv adm : Bool) (mode : CurrencyMode) (fr : Option ℚ) (now : ℕ)
    (howner : p.user_id = u) (hnotpaid : p.is_paid = false) :
    ∃ p2, submit_payment p data u indiv adm mode fr now = Except.ok p2 ∧
      ((indiv || adm) = true →
        p2.is_paid = true ∧ p2.is_pending_approval = false ∧ p2.approved_by = some u ∧
        p2.approved_at = some now ∧ p2.paid_at = some now) ∧
      ((indiv || adm) = false →
        p2.is_pending_approval = true ∧ p2.is_paid = false) := by
  by_cases hb : (indiv || adm) = true
  · have hok : submit_payment p data u indiv adm mode fr now = Except.ok
        { record_paid_amounts mode data fr
            { p with amount_paid := some data.amount_paid,
                     currency_paid := some data.currency_paid,
                     payment_date := some (data.payment_date.getD now),
                     submitted_at := some now, rejection_reason := none } with
          is_paid := true, is_pending_approval := false, paid_at := some now,
          approved_at := some now, approved_by := some u } := by
      simp [submit_payment, howner, hnotpaid, hb]
    refine ⟨_, hok, fun _ => ⟨rfl, rfl, rfl, rfl, rfl⟩, fun hfalse => ?_⟩
    rw [hb] at hfalse
    cases hfalse
  · have hb2 : (indiv || adm) = false := by
      revert hb
      cases indiv <;> cases adm <;> simp
    have hok : submit_payment p data u indiv adm mode fr now = Except.ok
        { record_paid_amounts mode data fr
            { p with amount_paid := some data.amount_paid,
                     currency_paid := some data.currency_paid,
                     payment_date := some (data.payment_date.getD now),
                     submitted_at := some now, rejection_reason := none } with
          is_pending_approval := true } := by
      simp [submit_payment, howner, hnotpaid, hb2]
    refine ⟨_, hok, fun htrue => absurd htrue hb, fun _ => ⟨rfl, ?_⟩⟩
    simp [record_paid_amounts_is_paid, hnotpaid]

/-- Witness for c5_submit_approval_rule: an admin submission of a pending
obligation in an ARS-mode project is immediately approved. -/
theorem c5_submit_approval_rule_witness :
    (pendingPayment 1 10 10).user_id = 1 ∧
    (pendingPayment 1 10 10).is_paid = false ∧
    ∃ p2, submit_payment (pendingPayment 1 10 10)
        { amount_paid := 10, currency_paid := Currency.ARS, payment_date := none,
          exchange_rate_override := none }
        1 false true CurrencyMode.ARS none 3 = Except.ok p2 ∧
      p2.is_paid = true := by
  refine ⟨rfl, rfl, ?_⟩
  obtain ⟨p2, hok, htrue, _⟩ := c5_submit_approval_rule (pendingPayment 1 10 10)
    { amount_paid := 10, currency_paid := Currency.ARS, payment_date := none,
      exchange_rate_override := none }
    1 false true CurrencyMode.ARS none 3 rfl rfl
  exact ⟨p2, hok, (htrue rfl).1⟩

/-- C6 (amended): rejecting a pending expense obligation clears the pending
flag, leaves it unpaid, nulls amount_paid and currency_paid, records the
reason and the rejecting admin, but leaves the converted amounts
(amount_paid_usd, amount_paid_ars) and the recorded exchange rate
untouched; those are nulled only on the contribution-payment branch. -/
theorem c6_rejection_state (p : ParticipantPayment) (reason : Option String) (admin now : ℕ)
    (h : p.is_pending_approval = true) :
    ∃ p2, approve_payment_expense p false reason admin now = Except.ok p2 ∧
      p2.is_pending_approval = false ∧ p2.is_paid = false ∧
      p2.amount_paid = none ∧ p2.currency_paid = none ∧
      p2.rejection_reason ≠ none ∧ p2.approved_by = some admin ∧
      p2.amount_paid_usd = p.amount_paid_usd ∧ p2.amount_paid_ars = p.amount_paid_ars ∧
      p2.exchange_rate_at_payment = p.exchange_rate_at_payment := by
  have hres : approve_payment_expense p false reason admin now = Except.ok
      { p with is_pending_approval := false, is_paid := false, amount_paid := none,
               currency_paid := none,
               rejection_reason := some (if truthyStr reason then reason.getD ""
                 else "Rejected by admin"),
               approved_by := some admin, approved_at := some now } := by
    simp [approve_payment_expense, h]
  exact ⟨_, hres, rfl, rfl, rfl, rfl, by simp, rfl, rfl, rfl, rfl⟩

/-- Witness for c6_rejection_state at a concrete pending payment. -/
theorem c6_rejection_state_witness :
    c6SamplePayment.is_pending_approval = true ∧
    ∃ p2, approve_payment_expense c6SamplePayment false none 9 1 = Except.ok p2 ∧
      p2.amount_paid = none := by
  refine ⟨rfl, ?_⟩
  obtain ⟨p2, hok, _, _, hap, _⟩ := c6_rejection_state c6SamplePayment none 9 1 rfl
  exact ⟨p2, hok, hap⟩

/-- Counterexample to C6 as stated: rejecting the pending payment
c6SamplePayment (which has amount_paid_ars = 100 recorded) leaves
amount_paid_ars at 100, not nulled as the claim asserts for the converted
amounts. -/
theorem c6_counterexample :
    c6SamplePayment.is_pending_approval = true ∧
    (approve_payment_expense c6SamplePayment false none 9 1).toOption.map
      (fun q => q.amount_paid_ars) = some (some 100) := by
  refine ⟨rfl, ?_⟩
  simp [approve_payment_expense, c6SamplePayment, pendingPayment, Except.toOption]

theorem update_expense_status_ne_paid (s : ExpenseStatus) (ps : List ParticipantPayment)
    (hne : ps ≠ []) (hcount : ps.countP (fun q => q.is_paid) ≠ ps.length) :
    update_expense_status s ps ≠ ExpenseStatus.paid := by
  have hie : ps.isEmpty = false := by
    simpa [List.isEmpty_iff] using hne
  unfold update_expense_status
  rw [hie]
  simp only [Bool.false_eq_true, if_false]
  by_cases h0 : ps.countP (fun q => q.is_paid) = 0
  · simp [h0]
  · simp [h0, hcount]

/-- C10: the status recomputation has no is_deleted filter, so a payment
soft-deleted through delete_payment still counts as an unpaid obligation:
the recomputed status of an obligation set containing it is never PAID, and
the soft deletion changes nothing in the recomputed status. -/
theorem c10_soft_deleted_counts (s : ExpenseStatus) (pre post : List ParticipantPayment)
    (p p2 : ParticipantPayment) (adm own : Bool) (d : ℕ)
    (hunpaid : p.is_paid = false)
    (hdel : delete_payment p adm own d = Except.ok p2) :
    p2.is_deleted = true ∧ p2.is_paid = false ∧
    update_expense_status s (pre ++ p2 :: post) ≠ ExpenseStatus.paid ∧
    update_expense_status s (pre ++ p2 :: post) = update_expense_status s (pre ++ p :: post) := by
  have hp2 : p2 = { p with is_paid := false, is_deleted := true, deleted_by := some d } := by
    by_cases hauth : (!adm && !own) = true
    · rw [delete_payment] at hdel
      simp [hauth] at hdel
    · have hauth2 : (!adm && !own) = false := by
        revert hauth
        cases adm <;> cases own <;> simp
      rw [delete_payment] at hdel
      simp [hauth2, hunpaid] at hdel
      exact hdel.symm
  subst hp2
  refine ⟨rfl, rfl, ?_, ?_⟩
  · have hne : (pre ++ { p with is_paid := false, is_deleted := true, deleted_by := some d }
        :: post).isEmpty = false := by
      simp
    have hcle1 := List.countP_le_length (l := pre) (p := fun q => q.is_paid)
    have hcle2 := List.countP_le_length (l := post) (p := fun q => q.is_paid)
    have hcount : (pre ++ { p with is_paid := false, is_deleted := true, deleted_by := some d }
          :: post).countP (fun q => q.is_paid)
        ≠ (pre ++ { p with is_paid := false, is_deleted := true, deleted_by := some d }
          :: post).length := by
      rw [List.countP_append, List.countP_cons, List.length_append, List.length_cons]
      simp only [Bool.false_eq_true, if_false, Nat.add_zero]
      omega
    exact update_expense_status_ne_paid s _ (by simp) hcount
  · have hc : (pre ++ { p with is_paid := false, is_deleted := true, deleted_by := some d }
          :: post).countP (fun q => q.is_paid)
        = (pre ++ p :: post).countP (fun q => q.is_paid) := by
      simp [List.countP_append, List.countP_cons, hunpaid]
    have hlen : (pre ++ { p with is_paid := false, is_deleted := true, deleted_by := some d }
          :: post).length = (pre ++ p :: post).length := by
      simp
    simp [update_expense_status, hc, hlen]

/-- Witness for c10_soft_deleted_counts: soft-deleting the single unpaid
obligation of an expense with one other paid obligation keeps the
recomputed status away from PAID. -/
theorem c10_soft_deleted_counts_witness :
    (pendingPayment 1 10 10).is_paid = false ∧
    delete_payment (pendingPayment 1 10 10) true false 9
      = Except.ok { pendingPayment 1 10 10 with is_deleted := true, deleted_by := some 9 } ∧
    update_expense_status ExpenseStatus.somePaid
      ([samplePaid] ++ { pendingPayment 1 10 10 with is_deleted := true, deleted_by := some 9 }
        :: []) ≠ ExpenseStatus.paid := by
  have hdel : delete_payment (pendingPayment 1 10 10) true false 9
      = Except.ok { pendingPayment 1 10 10 with is_deleted := true, deleted_by := some 9 } := rfl
  exact ⟨rfl, hdel,
    (c10_soft_deleted_counts ExpenseStatus.somePaid [samplePaid] []
      (pendingPayment 1 10 10) _ true false 9 rfl hdel).2.2.1⟩

/-- C9: a non-deleted obligation carrying a participant-uploaded receipt
makes delete_expense fail, reporting exactly the participants owning the
blocking receipted payments; the error branch is taken before any mutation,
so in this embedding no payment is soft-deleted, no balance is credited and
the expense stays untouched: the caller keeps the input state. -/
theorem c9_receipt_blocks_delete (mode : CurrencyMode) (d : ℕ) (e : Expense)
    (ps : List ParticipantPayment) (ms : List ProjectMember) (p : ParticipantPayment)
    (hmem : p ∈ ps) (hnotdel : p.is_deleted = false)
    (hrcpt : truthyStr p.receipt_file_path = true) :
    delete_expense mode d e ps ms =
      Except.error (((ps.filter (fun q => !q.is_deleted)).filter
        (fun q => truthyStr q.receipt_file_path)).map (fun q => q.user_id)) ∧
    ((ps.filter (fun q => !q.is_deleted)).filter
        (fun q => truthyStr q.receipt_file_path)).map (fun q => q.user_id) ≠ [] := by
  have hblk : p ∈ (ps.filter (fun q => !q.is_deleted)).filter
      (fun q => truthyStr q.receipt_file_path) := by
    refine List.mem_filter.mpr ⟨List.mem_filter.mpr ⟨hmem, ?_⟩, hrcpt⟩
    simp [hnotdel]
  have hne : (ps.filter (fun q => !q.is_deleted)).filter
      (fun q => truthyStr q.receipt_file_path) ≠ [] :=
    List.ne_nil_of_mem hblk
  have hie : ((ps.filter (fun q => !q.is_deleted)).filter
      (fun q => truthyStr q.receipt_file_path)).isEmpty = false := by
    simpa [List.isEmpty_iff] using hne
  refine ⟨?_, ?_⟩
  · simp only [delete_expense, hie, Bool.false_eq_true, if_false]
  · intro hmap
    exact hne (List.map_eq_nil_iff.mp hmap)

/-- Witness for c9_receipt_blocks_delete: one receipted payment blocks the
deletion and is reported. -/
theorem c9_receipt_blocks_delete_witness :
    receiptedPayment ∈ [receiptedPayment] ∧
    receiptedPayment.is_deleted = false ∧
    truthyStr receiptedPayment.receipt_file_path = true ∧
    delete_expense CurrencyMode.DUAL 9 sampleExpenseARS [receiptedPayment] [] =
      Except.error ((([receiptedPayment].filter (fun q => !q.is_deleted)).filter
        (fun q => truthyStr q.receipt_file_path)).map (fun q => q.user_id)) := by
  have h1 : receiptedPayment ∈ [receiptedPayment] := List.mem_singleton.mpr rfl
  have h2 : truthyStr receiptedPayment.receipt_file_path = true := by
    simp [receiptedPayment, pendingPayment, truthyStr]
  exact ⟨h1, rfl, h2,
    (c9_receipt_blocks_delete CurrencyMode.DUAL 9 sampleExpenseARS [receiptedPayment] []
      receiptedPayment h1 rfl h2).1⟩

theorem split_member_step_due (e : Expense) (mode : CurrencyMode) (now : ℕ)
    (m : ProjectMember) :
    ((split_member_step e mode now m).1).amount_due_usd
      = (calc_amounts e mode (m.participation_percentage / 100)).1 ∧
    ((split_member_step e mode now m).1).amount_due_ars
      = (calc_amounts e mode (m.participation_percentage / 100)).2 := by
  by_cases hc : check_sufficient_balance m
      (calc_amounts e mode (m.participation_percentage / 100)).1
      (calc_amounts e mode (m.participation_percentage / 100)).2 mode e = true
  · constructor <;> simp [split_member_step, hc, auto_pay_from_balance]
  · have hc2 : check_sufficient_balance m
        (calc_amounts e mode (m.participation_percentage / 100)).1
        (calc_amounts e mode (m.participation_percentage / 100)).2 mode e = false := by
      simpa using hc
    constructor <;> simp [split_member_step, hc2, pendingPayment]

/-- C3: the obligations created for an expense carry per-member shares equal
to the expense total times percentage over 100, rounded independently to two
decimals, and in the modes where a currency side is computed their sum
differs from expense total times the percentage sum over 100 by at most
N times 0.005. -/
theorem c3_split_completeness (e : Expense) (mode : CurrencyMode) (now : ℕ)
    (members : List ProjectMember) :
    (mode = CurrencyMode.ARS ∨ mode = CurrencyMode.DUAL →
      |((create_participant_payments e mode now members).1.map
          (fun p => p.amount_due_ars)).sum
        - e.amount_ars * (members.map (fun m => m.participation_percentage)).sum / 100|
        ≤ (members.length : ℚ) * (1/200)) ∧
    (mode = CurrencyMode.USD ∨ mode = CurrencyMode.DUAL →
      |((create_participant_payments e mode now members).1.map
          (fun p => p.amount_due_usd)).sum
        - e.amount_usd * (members.map (fun m => m.participation_percentage)).sum / 100|
        ≤ (members.length : ℚ) * (1/200)) := by
  constructor
  · intro hmode
    have hmap : (create_participant_payments e mode now members).1.map
          (fun p => p.amount_due_ars)
        = members.map (fun m => quantize2 (e.amount_ars * (m.participation_percentage / 100))) := by
      unfold create_participant_payments
      rw [List.map_map]
      refine List.map_congr_left (fun m _ => ?_)
      show ((split_member_step e mode now m).1).amount_due_ars = _
      rw [(split_member_step_due e mode now m).2]
      rcases hmode with rfl | rfl <;> rfl
    rw [hmap, ← list_sum_map_mul_div e.amount_ars (fun m => m.participation_percentage) members]
    exact abs_list_sum_sub_le _ _ _ members (fun a _ => abs_quantize2_sub_le _)
  · intro hmode
    have hmap : (create_participant_payments e mode now members).1.map
          (fun p => p.amount_due_usd)
        = members.map (fun m => quantize2 (e.amount_usd * (m.participation_percentage / 100))) := by
      unfold create_participant_payments
      rw [List.map_map]
      refine List.map_congr_left (fun m _ => ?_)
      show ((split_member_step e mode now m).1).amount_due_usd = _
      rw [(split_member_step_due e mode now m).1]
      rcases hmode with rfl | rfl <;> rfl
    rw [hmap, ← list_sum_map_mul_div e.amount_usd (fun m => m.participation_percentage) members]
    exact abs_list_sum_sub_le _ _ _ members (fun a _ => abs_quantize2_sub_le _)

/-- Sample DUAL-mode expense of 100 USD at rate 1000 used for the split
completeness witness. -/
def splitExpenseDual : Expense :=
  { amount_usd := 100, amount_ars := 100000, currency_original := Currency.USD,
    exchange_rate_used := 1000, exchange_rate_source := some "auto", created_by := 1,
    is_deleted := false, deleted_by := none }

/-- Sample member at 60 percent participation with empty balances. -/
def memberSixty : ProjectMember :=
  { user_id := 1, participation_percentage := 60, is_active := true,
    balance_usd := 0, balance_ars := 0 }

/-- Sample member at 40 percent participation with empty balances. -/
def memberForty : ProjectMember :=
  { user_id := 2, participation_percentage := 40, is_active := true,
    balance_usd := 0, balance_ars := 0 }

/-- Witness for c3_split_completeness: a DUAL-mode split among two members
at 60 and 40 percent. -/
theorem c3_split_completeness_witness :
    (CurrencyMode.DUAL = CurrencyMode.ARS ∨ CurrencyMode.DUAL = CurrencyMode.DUAL) ∧
    |((create_participant_payments splitExpenseDual CurrencyMode.DUAL 0
        [memberSixty, memberForty]).1.map (fun p => p.amount_due_ars)).sum
      - splitExpenseDual.amount_ars
        * ([memberSixty, memberForty].map (fun m => m.participation_percentage)).sum / 100|
      ≤ (([memberSixty, memberForty] : List ProjectMember).length : ℚ) * (1/200) :=
  ⟨Or.inr rfl,
    (c3_split_completeness splitExpenseDual CurrencyMode.DUAL 0
      [memberSixty, memberForty]).1 (Or.inr rfl)⟩

/-- C8 (amended): for a rate of at least 1, converting a USD amount to ARS
and back at the same rate, with both conversion outputs rounded to two
decimals, returns within 0.01 of the original amount. -/
theorem c8_round_trip (x r : ℚ) (hr : 1 ≤ r) :
    |(convert_currency (convert_currency x Currency.USD r).2 Currency.ARS r).1 - x|
      ≤ 1/100 := by
  have hrpos : (0:ℚ) < r := lt_of_lt_of_le one_pos hr
  have h2 : |quantize2 (quantize2 (x * r) / r) - quantize2 (x * r) / r| ≤ 1/200 :=
    abs_quantize2_sub_le _
  have h3 : |quantize2 (x * r) / r - x| ≤ 1/200 := by
    have hx : quantize2 (x * r) / r - x = (quantize2 (x * r) - x * r) / r := by
      rw [sub_div]
      congr 1
      exact (mul_div_cancel_right₀ x (ne_of_gt hrpos)).symm
    rw [hx, abs_div, abs_of_pos hrpos]
    calc |quantize2 (x * r) - x * r| / r ≤ (1/200) / r := by
          gcongr
          exact abs_quantize2_sub_le _
      _ ≤ 1/200 := div_le_self (by norm_num) hr
  show |quantize2 (quantize2 (x * r) / r) - x| ≤ 1/100
  calc |quantize2 (quantize2 (x * r) / r) - x|
      = |(quantize2 (quantize2 (x * r) / r) - quantize2 (x * r) / r)
          + (quantize2 (x * r) / r - x)| := by ring_nf
    _ ≤ |quantize2 (quantize2 (x * r) / r) - quantize2 (x * r) / r|
          + |quantize2 (x * r) / r - x| := abs_add _ _
    _ ≤ 1/200 + 1/200 := add_le_add h2 h3
    _ = 1/100 := by norm_num

/-- Witness for c8_round_trip at x = 1/3 and rate 100. -/
theorem c8_round_trip_witness :
    (1:ℚ) ≤ 100 ∧
    |(convert_currency (convert_currency (1/3) Currency.USD 100).2 Currency.ARS 100).1 - 1/3|
      ≤ 1/100 :=
  ⟨by norm_num, c8_round_trip (1/3) 100 (by norm_num)⟩

/-- Counterexample to C8 as stated: at rate r = 1/100 (positive, so allowed
by the claim) and x = 0.30, converting to ARS rounds 0.003 down to 0.00 and
the round trip returns 0.00, which is 0.30 away from x, far beyond any
two-decimal rounding error. -/
theorem c8_counterexample :
    (0:ℚ) < 1/100 ∧
    ¬|(convert_currency (convert_currency (3/10) Currency.USD (1/100)).2
        Currency.ARS (1/100)).1 - 3/10| ≤ 1/100 := by
  constructor
  · norm_num
  · have hval : (convert_currency (convert_currency (3/10) Currency.USD (1/100)).2
        Currency.ARS (1/100)).1 = 0 := by
      norm_num [convert_currency, quantize2, roundHalfEven]
    rw [hval, zero_sub, abs_neg, abs_of_pos (by norm_num : (0:ℚ) < 3/10)]
    norm_num

theorem currency_usd_ne_ars : (Currency.USD = Currency.ARS) = False :=
  eq_false (fun h => nomatch h)

theorem mode_dual_ne_usd : (CurrencyMode.DUAL = CurrencyMode.USD) = False :=
  eq_false (fun h => nomatch h)

/-- Projection of the delete_expense result onto the ARS balances of the
members it returns, used to state the C1 failing-input theorem. -/
def finalBalancesArs
    (r : Except (List ℕ) (Expense × List ParticipantPayment × List ProjectMember)) :
    Option (List ℚ) :=
  match r with
  | Except.ok t => some (t.2.2.map (fun m => m.balance_ars))
  | Except.error _ => none

/-- DUAL-mode expense of 1 USD at recorded rate 1000, the expense of the C1
failing input. -/
def c1Expense : Expense :=
  { amount_usd := 1, amount_ars := 1000, currency_original := Currency.USD,
    exchange_rate_used := 1000, exchange_rate_source := some "manual", created_by := 1,
    is_deleted := false, deleted_by := none }

/-- Member at 33.33 percent with empty starting balances, the member of the
C1 failing input. -/
def c1Member : ProjectMember :=
  { user_id := 2, participation_percentage := 3333/100, is_active := true,
    balance_usd := 0, balance_ars := 0 }

/-- C1 fails on the code: after a contribution credit of 330 ARS (making
balance_ars = 330), the DUAL-mode split of the USD-denominated expense
c1Expense auto-pays the 33.33 percent obligation by debiting
amount_due_usd times the recorded rate (0.33 times 1000 = 330, leaving 0),
but delete_expense restores amount_paid_ars, the independently rounded ARS
share 333.30.  The final balance 333.30 differs both from the
post-contribution value 330 and from the starting value 0, so the sequence
does not restore the balance exactly. -/
theorem c1_delete_restores_wrong_amount :
    (credit_contribution CurrencyMode.DUAL 330 c1Member).balance_ars = 330 ∧
    ((split_member_step c1Expense CurrencyMode.DUAL 0
        (credit_contribution CurrencyMode.DUAL 330 c1Member)).1).is_paid = true ∧
    ((split_member_step c1Expense CurrencyMode.DUAL 0
        (credit_contribution CurrencyMode.DUAL 330 c1Member)).2).balance_ars = 0 ∧
    finalBalancesArs (delete_expense CurrencyMode.DUAL 1 c1Expense
        [(split_member_step c1Expense CurrencyMode.DUAL 0
            (credit_contribution CurrencyMode.DUAL 330 c1Member)).1]
        [(split_member_step c1Expense CurrencyMode.DUAL 0
            (credit_contribution CurrencyMode.DUAL 330 c1Member)).2]) = some [3333/10] := by
  refine ⟨by norm_num [credit_contribution, c1Member], ?_, ?_, ?_⟩
  · norm_num [credit_contribution, c1Member, c1Expense, split_member_step, calc_amounts,
      check_sufficient_balance, auto_pay_from_balance, quantize2, roundHalfEven,
      currency_usd_ne_ars, mode_dual_ne_usd]
  · norm_num [credit_contribution, c1Member, c1Expense, split_member_step, calc_amounts,
      check_sufficient_balance, auto_pay_from_balance, quantize2, roundHalfEven,
      currency_usd_ne_ars, mode_dual_ne_usd]
  · norm_num [credit_contribution, c1Member, c1Expense, split_member_step, calc_amounts,
      check_sufficient_balance, auto_pay_from_balance, delete_expense, credit_restore,
      truthyStr, truthyQ, quantize2, roundHalfEven, finalBalancesArs,
      currency_usd_ne_ars, mode_dual_ne_usd]

end AdminObras
